import Mathlib

/-!
Verification of the multi-GPU example training scripts
(`mag240m_graphsage.py`, `papers100m_gcn_multinode.py`,
`singlenode_multigpu_papers100m_gcn.py`) against their natural-language
specification.  The scripts are shallowly embedded: pure computations become
Lean functions over `Nat`/`ℚ`/lists, Python runtime failures become
`Except PyError`, and side effects (prints, saves, optimizer calls) become
explicit action traces.
-/

namespace PyGExamples

/-- Python runtime errors that the embedded fragments can raise. -/
inductive PyError where
  | nameError : String → PyError
  | unboundLocalError : String → PyError
  | typeError : String → PyError
  | assertionError : PyError
  | zeroDivisionError : PyError
  deriving Repr, DecidableEq

/-- Side-effecting operations performed by the scripts, recorded as trace
events. -/
inductive Action where
  | zeroGrad : Action
  | toDevice : Action
  | forward : Action
  | lossCompute : Nat → Action
  | accUpdate : Action
  | backward : Action
  | optStep : Action
  | logMsg : String → Action
  | saveFile : String → Action
  | allReduceMean : Action
  | destroyProcessGroup : Action
  deriving Repr, DecidableEq

/-! ## Name resolution in `mag240m_graphsage.py`

Python resolves a name used inside a function body against the local scope,
then the module globals, then the builtins; an unresolved name raises
`NameError` at the point of use.  `mag240mModuleGlobals` transcribes the
names bound at module level of `mag240m_graphsage.py` (its imports and its
`def`/`class` statements). -/

/-- Names bound at module scope of `mag240m_graphsage.py`: the imports of
lines 1-22 and the module-level `def`/`class` statements. -/
def mag240mModuleGlobals : List String :=
  ["argparse", "os", "time", "Dict", "List", "Tuple", "torch", "dist", "mp",
   "F", "MAG240MDataset", "MAG240MEvaluator", "Tensor", "Embedding", "Linear",
   "DistributedDataParallel", "Accuracy", "tqdm", "seed_everything", "Batch",
   "NeighborLoader", "HeteroConv", "SAGEConv", "BatchNorm", "Adj", "EdgeType",
   "NodeType", "common_step", "training_step", "validation_step",
   "predict_step", "SAGEConvLayer", "GraphSAGE", "run"]

/-- The Python builtins referenced by the embedded fragments. -/
def pythonBuiltins : List String :=
  ["super", "print", "range", "len", "enumerate", "int", "sum", "hasattr"]

/-- Resolve one name: local scope, then module globals, then builtins;
an unresolved name raises `NameError`. -/
def resolveName (locals : List String) (globals : List String)
    (n : String) : Except PyError Unit :=
  if n ∈ locals ∨ n ∈ globals ∨ n ∈ pythonBuiltins then Except.ok ()
  else Except.error (PyError.nameError n)

/-- Resolve a sequence of name uses in order, stopping at the first
`NameError`. -/
def resolveAll (locals : List String) (globals : List String) :
    List String → Except PyError Unit
  | [] => Except.ok ()
  | n :: rest =>
    match resolveName locals globals n with
    | Except.ok _ => resolveAll locals globals rest
    | Except.error e => Except.error e

theorem resolveAll_append (locals globals : List String)
    (xs ys : List String) :
    resolveAll locals globals (xs ++ ys) =
      (resolveAll locals globals xs).bind
        (fun _ => resolveAll locals globals ys) := by
  induction xs with
  | nil => rfl
  | cons n rest ih =>
    simp only [List.cons_append, resolveAll]
    cases resolveName locals globals n with
    | ok u => simpa using ih
    | error e => rfl

/-- Local names of `SAGEConvLayer.__init__`: its parameters. -/
def sageConvLayerInitLocals : List String :=
  ["self", "in_feat", "out_feat", "dropout", "metadata"]

/-- The names loaded, in execution order, by the body of
`SAGEConvLayer.__init__` (lines 50-68).  `metadata` is a pair
(node types, edge types); the dict comprehension body
`conv_type(in_feat, out_feat, **kwargs)` executes once per edge type
in `metadata[1]`, and the normalization loop once per node type in
`metadata[0]`. -/
def sageConvLayerInitLookups (metadata : List String × List String) :
    List String :=
  ["super", "in_feat", "out_feat", "HeteroConv", "metadata"]
    ++ metadata.2.flatMap
      (fun _ => ["conv_type", "in_feat", "out_feat", "kwargs"])
    ++ ["nn", "dropout", "torch", "nn"]
    ++ metadata.1.flatMap (fun _ => ["BatchNorm", "out_feat"])

/-- Embedding of `SAGEConvLayer.__init__` (lines 50-68): it only performs
name lookups before any of them can fail, so its outcome is decided by
resolving its loads in order. -/
def sageConvLayerInit (metadata : List String × List String) :
    Except PyError Unit :=
  resolveAll sageConvLayerInitLocals mag240mModuleGlobals
    (sageConvLayerInitLookups metadata)

theorem sageConvLayerInit_nameError (metadata : List String × List String) :
    sageConvLayerInit metadata =
      Except.error (PyError.nameError
        (if metadata.2.isEmpty then "nn" else "conv_type")) := by
  obtain ⟨nodes, edges⟩ := metadata
  cases edges with
  | nil =>
    simp only [sageConvLayerInit, sageConvLayerInitLookups, List.flatMap_nil,
      List.isEmpty_nil, if_true, List.append_nil, List.nil_append]
    rw [resolveAll_append]
    rfl
  | cons e rest =>
    simp only [sageConvLayerInit, sageConvLayerInitLookups,
      List.flatMap_cons, List.isEmpty_cons, if_false]
    rw [List.append_assoc, resolveAll_append]
    rfl

/-- Embedding of `GraphSAGE.__init__` (lines 79-104): the embedding-table
constructions (`torch.nn.Embedding`) resolve, then
`self.input_conv = SAGEConvLayer(...)` runs `SAGEConvLayer.__init__`; the
remaining layers are only reached if that call returns. -/
def graphSAGEInit (numLayers : Nat) (metadata : List String × List String) :
    Except PyError Unit :=
  (resolveAll
      ["self", "in_channels", "hidden_channels", "num_layers", "out_channels",
       "dropout", "data"]
      mag240mModuleGlobals
      ["super", "num_layers", "torch", "data", "in_channels", "torch", "data",
       "in_channels", "data", "SAGEConvLayer", "in_channels",
       "hidden_channels", "dropout"]).bind
    (fun _ => (sageConvLayerInit metadata).bind
      (fun _ =>
        ((List.range (numLayers - 2)).flatMap
            (fun _ => [sageConvLayerInit metadata])).foldl
          (fun acc step => acc.bind (fun _ => step)) (Except.ok ())))

/-- Embedding of `run` (lines 120-264) up to and including the model
construction at line 145: `seed_everything`, the optional distributed
setup, the `Accuracy` metric, then `GraphSAGE(...)`; everything after the
model construction (loaders, training, evaluation) is only reached if the
construction returns. -/
def runUpToModel (nDevices : Nat) (numLayers : Nat)
    (metadata : List String × List String) : Except PyError Unit :=
  (resolveAll
      ["rank", "data", "n_devices", "num_epochs", "num_steps_per_epoch",
       "log_every_n_steps", "batch_size", "sizes", "hidden_channels",
       "dropout", "eval_steps", "num_warmup_iters_for_timing", "debug"]
      mag240mModuleGlobals
      (["seed_everything"]
        ++ (if nDevices > 1 then ["os", "os", "dist"] else [])
        ++ ["Accuracy", "data", "GraphSAGE"])).bind
    (fun _ => graphSAGEInit numLayers metadata)

theorem runUpToModel_nameError (nDevices numLayers : Nat)
    (metadata : List String × List String) :
    runUpToModel nDevices numLayers metadata =
      Except.error (PyError.nameError
        (if metadata.2.isEmpty then "nn" else "conv_type")) := by
  have hpre : resolveAll
      ["rank", "data", "n_devices", "num_epochs", "num_steps_per_epoch",
       "log_every_n_steps", "batch_size", "sizes", "hidden_channels",
       "dropout", "eval_steps", "num_warmup_iters_for_timing", "debug"]
      mag240mModuleGlobals
      (["seed_everything"]
        ++ (if nDevices > 1 then ["os", "os", "dist"] else [])
        ++ ["Accuracy", "data", "GraphSAGE"]) = Except.ok () := by
    by_cases h : nDevices > 1 <;> simp [h] <;> rfl
  simp only [runUpToModel, hpre, Except.bind, graphSAGEInit,
    sageConvLayerInit_nameError]
  rfl

/-! ## Optimizer construction in the two papers100m scripts (C2, C3) -/

/-- Adam optimizer hyperparameters, as passed to `torch.optim.Adam`. -/
structure AdamConfig where
  lr : ℚ
  weightDecay : ℚ
  deriving Repr, DecidableEq

/-- Embedding of the optimizer construction in
`papers100m_gcn_multinode.py` lines 48-49:
`torch.optim.Adam(model.parameters(), lr=0.01, weight_decay=0.0005)`.
The learning rate is the literal `0.01`; the parsed `--lr` value (passed in
here for comparison) does not occur in `run_train`. -/
def multinodeAdam (_cliLr : ℚ) : AdamConfig :=
  { lr := 1 / 100, weightDecay := 5 / 10000 }

/-- Embedding of the optimizer construction in
`singlenode_multigpu_papers100m_gcn.py` lines 37-38, which is the identical
call `torch.optim.Adam(model.parameters(), lr=0.01, weight_decay=0.0005)`. -/
def singlenodeAdam (_cliLr : ℚ) : AdamConfig :=
  { lr := 1 / 100, weightDecay := 5 / 10000 }

/-- Default of the `--lr` CLI flag in both papers100m scripts
(`parser.add_argument('--lr', type=float, default=0.001)`). -/
def lrFlagDefault : ℚ := 1 / 1000

/-- Parameter list of `run_train` in `papers100m_gcn_multinode.py`
(lines 35-36); the function has no defaulted parameters and no varargs. -/
def runTrainParamsMultinode : List String :=
  ["data", "world_size", "model", "epochs", "batch_size", "fan_out",
   "split_idx", "num_classes", "cugraph_data_loader"]

/-- Positional argument list of the `run_train(...)` call in the
`__main__` block of `papers100m_gcn_multinode.py` (lines 189-191). -/
def mainCallArgsMultinode : List String :=
  ["data", "nprocs", "model", "args.epochs", "args.batch_size",
   "args.fan_out", "split_idx", "dataset.num_classes",
   "args.cugraph_data_loader", "wall_clock_start"]

/-- A Python call of a function with `nparams` parameters (none defaulted,
no varargs) and `nargs` positional arguments raises `TypeError` exactly
when the counts differ. -/
def callRaisesTypeError (nparams nargs : Nat) : Bool :=
  nargs ≠ nparams

/-! ## `get_num_workers` (C4)

The environment is summarized by whether `os.sched_getaffinity` is
available and succeeds (`affinity = some k`, with `k` the size of the
affinity set) or not (`affinity = none`, falling through to
`os.cpu_count()`). -/

/-- Embedding of `get_num_workers` in `papers100m_gcn_multinode.py`
(lines 23-32): affinity count integer-divided by 2, falling back to
`os.cpu_count() // 2`. -/
def getNumWorkersMultinode (affinity : Option Nat) (cpuCount : Nat) : Nat :=
  match affinity with
  | some k => k / 2
  | none => cpuCount / 2

/-- Embedding of `get_num_workers` in
`singlenode_multigpu_papers100m_gcn.py` (lines 16-25): affinity count
integer-divided by `2 * world_size`, falling back to
`os.cpu_count() // (2 * world_size)`. -/
def getNumWorkersSinglenode (worldSize : Nat) (affinity : Option Nat)
    (cpuCount : Nat) : Nat :=
  match affinity with
  | some k => k / (2 * worldSize)
  | none => cpuCount / (2 * worldSize)

/-! ## Test-accuracy computation (C5)

Each rank accumulates `acc_sum`, the sum of its per-batch accuracy values;
`torch.distributed.all_reduce(acc_sum, op=ReduceOp.MEAN)` replaces every
rank's sum with the mean of the per-rank sums; the printed value then
divides by an index derived from the loop counter `i`. -/

/-- Result of `all_reduce` with `ReduceOp.MEAN` over the per-rank values. -/
def allReduceMeanQ (xs : List ℚ) : ℚ := xs.sum / xs.length

/-- Printed final test accuracy of the two papers100m scripts
(`papers100m_gcn_multinode.py` lines 121-131,
`singlenode_multigpu_papers100m_gcn.py` lines 109-119): the test loop has
no break, so every batch is processed and the loop counter `i` ends at
`n - 1` for `n` batches; the print divides the reduced sum by `i` and
multiplies by 100. -/
def papersTestPrintedAcc (rankAccs : List (List ℚ)) (r : Nat) : ℚ :=
  allReduceMeanQ (rankAccs.map List.sum) /
    (((rankAccs.getD r []).length - 1 : Nat) : ℚ) * 100

/-- Final value of the loop counter `i` in the mag240m test loop
(lines 251-253): the loop breaks when `i >= eval_steps` before processing
batch `i`, so with `n` available batches `i` ends at `n - 1` when the
loader is exhausted and at `eval_steps` when truncated. -/
def mag240mFinalIndex (evalSteps n : Nat) : Nat :=
  if n ≤ evalSteps then n - 1 else evalSteps

/-- Printed final test accuracy of `mag240m_graphsage.py`
(lines 249-260): each rank sums the accuracies of its first `eval_steps`
batches, all-reduces with `ReduceOp.MEAN`, and divides by `i + 1`. -/
def mag240mTestPrintedAcc (evalSteps : Nat) (rankAccs : List (List ℚ))
    (r : Nat) : ℚ :=
  allReduceMeanQ (rankAccs.map (fun a => (a.take evalSteps).sum)) /
    ((mag240mFinalIndex evalSteps (rankAccs.getD r []).length : Nat) + 1 : ℚ)
    * 100

/-- The formula asserted by the claim: 100 times the cross-rank mean of
the per-rank accuracy sums, divided by the number of test batches actually
processed. -/
def claimedTestAcc (rankSums : List ℚ) (processed : Nat) : ℚ :=
  100 * allReduceMeanQ rankSums / (processed : ℚ)

/-! ## Exception handlers (C6)

Transcription of every `try`/`except` statement occurring in the three
scripts. -/

/-- One `except` clause: the script it occurs in, the enclosing function
(or the `__main__` block), and the caught exception type. -/
structure ExceptHandler where
  script : String
  enclosing : String
  caughtType : String
  deriving Repr, DecidableEq

/-- The only `try`/`except` in `mag240m_graphsage.py`: lines 326-348,
around `mp.spawn`, catching `ProcessExitedException`. -/
def mag240mHandlers : List ExceptHandler :=
  [⟨"mag240m_graphsage.py", "__main__", "ProcessExitedException"⟩]

/-- The only `try`/`except` in `papers100m_gcn_multinode.py`:
lines 26-29, inside `get_num_workers`, catching `Exception` (body `pass`)
around the `os.sched_getaffinity` query. -/
def multinodeHandlers : List ExceptHandler :=
  [⟨"papers100m_gcn_multinode.py", "get_num_workers", "Exception"⟩]

/-- The only `try`/`except` in `singlenode_multigpu_papers100m_gcn.py`:
lines 19-22, inside `get_num_workers`, catching `Exception` (body `pass`)
around the `os.sched_getaffinity` query. -/
def singlenodeHandlers : List ExceptHandler :=
  [⟨"singlenode_multigpu_papers100m_gcn.py", "get_num_workers",
    "Exception"⟩]

/-- All exception handlers of the three scripts. -/
def allHandlers : List ExceptHandler :=
  mag240mHandlers ++ multinodeHandlers ++ singlenodeHandlers

/-! ## Claim C1 -/

/-- C1: in `mag240m_graphsage.py` the names `nn`, `conv_type` and `kwargs`
used by `SAGEConvLayer.__init__` are bound neither locally, nor at module
scope, nor as builtins, and consequently every execution of `run` — for
every device count, layer count and dataset metadata — fails with a
`NameError` at model construction, before any training occurs. -/
theorem C1_run_always_raises_nameError :
    (("nn" ∉ sageConvLayerInitLocals ∧ "nn" ∉ mag240mModuleGlobals ∧
        "nn" ∉ pythonBuiltins) ∧
      ("conv_type" ∉ sageConvLayerInitLocals ∧
        "conv_type" ∉ mag240mModuleGlobals ∧
        "conv_type" ∉ pythonBuiltins) ∧
      ("kwargs" ∉ sageConvLayerInitLocals ∧
        "kwargs" ∉ mag240mModuleGlobals ∧ "kwargs" ∉ pythonBuiltins)) ∧
    ∀ (nDevices numLayers : Nat) (metadata : List String × List String),
      ∃ n, runUpToModel nDevices numLayers metadata =
        Except.error (PyError.nameError n) := by
  refine ⟨by decide, fun nDevices numLayers metadata => ?_⟩
  exact ⟨_, runUpToModel_nameError nDevices numLayers metadata⟩

/-! ## Claim C2 -/

/-- C2 counterexample: with the `--lr` flag at its default value `0.001`,
the Adam optimizer of `papers100m_gcn_multinode.py` is constructed with
learning rate `0.01`, not the flag's value. -/
theorem C2_counterexample :
    (multinodeAdam lrFlagDefault).lr ≠ lrFlagDefault := by
  norm_num [multinodeAdam, lrFlagDefault]

/-- C2 (amended): in both papers100m scripts the Adam optimizer is
constructed with the hard-coded learning rate `0.01` (and weight decay
`0.0005`) for every value of the `--lr` CLI flag; the parsed flag value is
never used. -/
theorem C2_adam_lr_hardcoded (cliLr : ℚ) :
    multinodeAdam cliLr = { lr := 1 / 100, weightDecay := 5 / 10000 } ∧
      singlenodeAdam cliLr = { lr := 1 / 100, weightDecay := 5 / 10000 } :=
  ⟨rfl, rfl⟩

/-! ## Claim C3 -/

/-- C3 counterexample: the `run_train` call in the `__main__` block of
`papers100m_gcn_multinode.py` passes 10 positional arguments to a function
whose definition has 9 parameters — not 11 and 10 as the claim states. -/
theorem C3_counterexample :
    ¬(mainCallArgsMultinode.length = 11 ∧
      runTrainParamsMultinode.length = 10) := by decide

/-- C3 (amended): every execution of the `__main__` block of
`papers100m_gcn_multinode.py` that reaches the `run_train` call raises
`TypeError`, because `run_train` is invoked with 10 positional arguments
while its definition accepts only 9 parameters (none defaulted, no
varargs). -/
theorem C3_run_train_arity_mismatch :
    mainCallArgsMultinode.length = 10 ∧
      runTrainParamsMultinode.length = 9 ∧
      callRaisesTypeError runTrainParamsMultinode.length
        mainCallArgsMultinode.length = true := by decide

/-! ## Claim C4 -/

/-- C4 counterexample: in an environment whose CPU affinity set has a
single CPU, `get_num_workers` of `papers100m_gcn_multinode.py` returns
`1 // 2 = 0`, which is not positive. -/
theorem C4_counterexample :
    ¬ 0 < getNumWorkersMultinode (some 1) 8 := by decide

/-- C4 (amended): `get_num_workers` returns the CPU-affinity count
integer-divided by the script's concurrency factor (2 in the multi-node
script, `2 * world_size` in the single-node script), falling back to
`os.cpu_count()` divided by the same factor when CPU affinity is
unavailable or raises; the result is a nonnegative integer, and it is
positive exactly when the selected CPU count is at least the factor. -/
theorem C4_get_num_workers (affinity : Option Nat) (cpuCount worldSize : Nat) :
    getNumWorkersMultinode affinity cpuCount =
        (affinity.getD cpuCount) / 2 ∧
      getNumWorkersSinglenode worldSize affinity cpuCount =
        (affinity.getD cpuCount) / (2 * worldSize) ∧
      (0 < getNumWorkersMultinode affinity cpuCount ↔
        2 ≤ affinity.getD cpuCount) ∧
      (0 < getNumWorkersSinglenode worldSize affinity cpuCount ↔
        0 < 2 * worldSize ∧ 2 * worldSize ≤ affinity.getD cpuCount) := by
  have key : ∀ a b : Nat, 0 < a / b ↔ 0 < b ∧ b ≤ a := by
    intro a b
    rcases Nat.eq_zero_or_pos b with hb | hb
    · subst hb; simp
    · rw [Nat.div_pos_iff (Nat.pos_iff_ne_zero.mp hb)]
      simp [hb]
  cases affinity with
  | none =>
    refine ⟨rfl, rfl, ?_, ?_⟩
    · simpa [getNumWorkersMultinode] using key cpuCount 2
    · simpa [getNumWorkersSinglenode] using key cpuCount (2 * worldSize)
  | some k =>
    refine ⟨rfl, rfl, ?_, ?_⟩
    · simpa [getNumWorkersMultinode] using key k 2
    · simpa [getNumWorkersSinglenode] using key k (2 * worldSize)

/-! ## Claim C5 -/

/-- C5 counterexample: a single rank whose test loader yields 3 batches of
accuracy 1/2 each.  The papers100m scripts print
`mean / i * 100 = (3/2) / 2 * 100 = 75`, while the claim's formula —
dividing by the 3 batches actually processed — gives
`100 * (3/2) / 3 = 50`. -/
theorem C5_counterexample :
    papersTestPrintedAcc [[1/2, 1/2, 1/2]] 0 ≠
      claimedTestAcc ([[(1 : ℚ)/2, 1/2, 1/2]].map List.sum)
        ([[(1 : ℚ)/2, 1/2, 1/2]].getD 0 []).length := by
  simp only [papersTestPrintedAcc, claimedTestAcc, allReduceMeanQ,
    List.map_cons, List.map_nil, List.sum_cons, List.sum_nil, List.getD,
    List.getElem?_cons_zero, Option.getD_some, List.length_cons,
    List.length_nil]
  norm_num

/-- C5 (amended): on every rank the papers100m scripts print
`100 * mean / (n - 1)` where `n` is the number of test batches processed
(the loop counter ends at `n - 1` and the print divides by `i`, not
`i + 1`); `mag240m_graphsage.py` prints `100 * mean / n`, matching the
claim, exactly when every rank's test loader is exhausted before
`eval_steps` (so that `i + 1 = n`), and prints
`100 * mean / (eval_steps + 1)` — although only `eval_steps` batches were
processed — when truncated. -/
theorem C5_printed_test_accuracy (rankAccs : List (List ℚ))
    (r evalSteps : Nat) (hn : 1 ≤ (rankAccs.getD r []).length) :
    papersTestPrintedAcc rankAccs r =
        100 * allReduceMeanQ (rankAccs.map List.sum) /
          (((rankAccs.getD r []).length - 1 : Nat) : ℚ) ∧
      ((rankAccs.getD r []).length ≤ evalSteps →
        (∀ a ∈ rankAccs, a.length ≤ evalSteps) →
        mag240mTestPrintedAcc evalSteps rankAccs r =
          claimedTestAcc (rankAccs.map List.sum)
            (rankAccs.getD r []).length) ∧
      (evalSteps < (rankAccs.getD r []).length →
        mag240mTestPrintedAcc evalSteps rankAccs r =
          100 * allReduceMeanQ
              (rankAccs.map (fun a => (a.take evalSteps).sum)) /
            ((evalSteps : ℚ) + 1)) := by
  refine ⟨?_, ?_, ?_⟩
  · simp only [papersTestPrintedAcc]
    ring
  · intro hle hall
    have htake : rankAccs.map (fun a => (a.take evalSteps).sum) =
        rankAccs.map List.sum := by
      apply List.map_congr_left
      intro a ha
      rw [List.take_of_length_le (hall a ha)]
    have hidx : mag240mFinalIndex evalSteps (rankAccs.getD r []).length =
        (rankAccs.getD r []).length - 1 := by
      unfold mag240mFinalIndex
      rw [if_pos hle]
    have hcast : (((rankAccs.getD r []).length - 1 : Nat) : ℚ) + 1 =
        ((rankAccs.getD r []).length : ℚ) := by
      rw [Nat.cast_sub hn]
      ring
    simp only [mag240mTestPrintedAcc, claimedTestAcc, htake, hidx, hcast]
    ring
  · intro hlt
    have hidx : mag240mFinalIndex evalSteps (rankAccs.getD r []).length =
        evalSteps := by
      unfold mag240mFinalIndex
      rw [if_neg (Nat.not_le.mpr hlt)]
    simp only [mag240mTestPrintedAcc, hidx]
    ring

/-- C5 witness: the amended statement instantiated at one rank with two
test batches and `eval_steps = 5`. -/
theorem C5_witness :
    1 ≤ ([[(1 : ℚ)/2, 1/2]].getD 0 []).length ∧
      (papersTestPrintedAcc [[(1 : ℚ)/2, 1/2]] 0 =
          100 * allReduceMeanQ ([[(1 : ℚ)/2, 1/2]].map List.sum) /
            ((([[(1 : ℚ)/2, 1/2]].getD 0 []).length - 1 : Nat) : ℚ) ∧
        (([[(1 : ℚ)/2, 1/2]].getD 0 []).length ≤ 5 →
          (∀ a ∈ [[(1 : ℚ)/2, 1/2]], a.length ≤ 5) →
          mag240mTestPrintedAcc 5 [[(1 : ℚ)/2, 1/2]] 0 =
            claimedTestAcc ([[(1 : ℚ)/2, 1/2]].map List.sum)
              ([[(1 : ℚ)/2, 1/2]].getD 0 []).length) ∧
        (5 < ([[(1 : ℚ)/2, 1/2]].getD 0 []).length →
          mag240mTestPrintedAcc 5 [[(1 : ℚ)/2, 1/2]] 0 =
            100 * allReduceMeanQ
                ([[(1 : ℚ)/2, 1/2]].map (fun a => (a.take 5).sum)) /
              ((5 : ℚ) + 1))) :=
  ⟨by decide, C5_printed_test_accuracy [[(1 : ℚ)/2, 1/2]] 0 5 (by decide)⟩

/-! ## Claim C6 -/

/-- C6 counterexample: the handler table of the three scripts contains
handlers for an exception type other than `ProcessExitedException` — the
broad `except Exception: pass` inside `get_num_workers` of each papers100m
script — contradicting the claim that no other exception type is caught in
any of the three scripts. -/
theorem C6_counterexample :
    ¬ ∀ h ∈ allHandlers, h.caughtType = "ProcessExitedException" := by
  decide

/-- C6 (amended): exactly one script (`mag240m_graphsage.py`) catches
process-spawn failures, and its only handler catches
`ProcessExitedException` around `mp.spawn` in `__main__`; every other
handler in the three scripts is the broad `except Exception` (with body
`pass`) inside `get_num_workers` of a papers100m script, around the
`os.sched_getaffinity` query; no further handlers exist. -/
theorem C6_exception_handlers :
    allHandlers.filter
        (fun h => h.caughtType == "ProcessExitedException") =
      [⟨"mag240m_graphsage.py", "__main__", "ProcessExitedException"⟩] ∧
      mag240mHandlers =
        [⟨"mag240m_graphsage.py", "__main__", "ProcessExitedException"⟩] ∧
      allHandlers.length = 3 ∧
      ∀ h ∈ allHandlers, h.caughtType = "ProcessExitedException" ∨
        (h.caughtType = "Exception" ∧ h.enclosing = "get_num_workers" ∧
          h.script ≠ "mag240m_graphsage.py") := by
  refine ⟨by decide, by decide, by decide, by decide⟩

/-! ## Action traces (C7, C8, C9)

The per-iteration training bodies and the run tails are embedded as lists
of `Action` events in execution order. -/

/-- One training iteration of `mag240m_graphsage.py` (lines 210-227):
`optimizer.zero_grad()`, the `batch.to(rank, ...)` transfer when running
on devices, the forward pass and cross-entropy loss of `training_step`
(via `common_step`, slicing the first `batchBatchSize` outputs, where
`batchBatchSize` is the batch's own `batch_size` attribute), the
`acc(...)` update, `loss.backward()`, `optimizer.step()`, and the rank-0
log at steps that are a multiple of `log_every_n_steps`. -/
def mag240mTrainIter (rank i logEvery nDevices batchBatchSize : Nat) :
    List Action :=
  [Action.zeroGrad]
    ++ (if nDevices > 0 then [Action.toDevice] else [])
    ++ [Action.forward, Action.lossCompute batchBatchSize, Action.accUpdate,
        Action.backward, Action.optStep]
    ++ (if rank = 0 ∧ i % logEvery = 0 then [Action.logMsg "train step"]
        else [])

/-- One training iteration of `singlenode_multigpu_papers100m_gcn.py`
(lines 81-93): `batch.to(rank)`, `optimizer.zero_grad()`,
`out = model(batch.x, batch.edge_index)`, cross-entropy on
`out[:batch_size]` against `batch.y[:batch_size]`, `loss.backward()`,
`optimizer.step()`, and the rank-0 log every 10 steps. -/
def singlenodeTrainIter (rank i batchSize : Nat) : List Action :=
  [Action.toDevice, Action.zeroGrad, Action.forward,
      Action.lossCompute batchSize, Action.backward, Action.optStep]
    ++ (if rank = 0 ∧ i % 10 = 0 then [Action.logMsg "loss"] else [])

/-- The part of a `papers100m_gcn_multinode.py` training iteration
(lines 93-105) that always completes: the `batch.to(device)` transfer,
`optimizer.zero_grad()`, the forward pass, cross-entropy on
`out[:batch_size]` against `batch.y[:batch_size]`, `loss.backward()`,
`optimizer.step()`, and the rank-0 loss log every 10 steps. -/
def multinodePre (rank i batchSize : Nat) : List Action :=
  [Action.toDevice, Action.zeroGrad, Action.forward,
      Action.lossCompute batchSize, Action.backward, Action.optStep]
    ++ (if rank = 0 ∧ i % 10 = 0 then [Action.logMsg "loss"] else [])

/-- One training iteration of `papers100m_gcn_multinode.py`
(lines 93-107): same core sequence as the single-node script, but the
`"Average Training Iteration Time"` print at lines 106-107 is indented
inside the batch loop.  Its argument `(time.time() - start) / (i - 10)`
first loads the function-local `start`, which is assigned only at the top
of the iteration with `i == warmup_steps` (warmup_steps is 20, lines
94-95): `startBound` records whether an earlier iteration made that
assignment.  With `start` unbound the print raises `UnboundLocalError`;
with it bound, `i == 10` makes the denominator zero and raises
`ZeroDivisionError`, and otherwise the timing message is printed.  The
result pairs the actions that complete with the iteration's outcome. -/
def multinodeTrainIter (rank i batchSize : Nat) (startBound : Bool) :
    List Action × Except PyError Unit :=
  if startBound = true ∨ i = 20 then
    if i = 10 then
      (multinodePre rank i batchSize, Except.error PyError.zeroDivisionError)
    else
      (multinodePre rank i batchSize
          ++ [Action.logMsg "Average Training Iteration Time"],
        Except.ok ())
  else
    (multinodePre rank i batchSize,
      Except.error (PyError.unboundLocalError "start"))

/-- The training-batch loop of one epoch of
`papers100m_gcn_multinode.py` (lines 93-107), over the batch indices the
loader yields, threading whether `start` has been assigned; the loop stops
at the first iteration that raises. -/
def multinodeEpochLoop (rank batchSize : Nat) :
    List Nat → Bool → List Action × Except PyError Unit
  | [], _ => ([], Except.ok ())
  | i :: rest, sb =>
    match (multinodeTrainIter rank i batchSize sb).2 with
    | Except.ok _ =>
      ((multinodeTrainIter rank i batchSize sb).1 ++
          (multinodeEpochLoop rank batchSize rest
            (sb || decide (i = 20))).1,
        (multinodeEpochLoop rank batchSize rest (sb || decide (i = 20))).2)
    | Except.error e =>
      ((multinodeTrainIter rank i batchSize sb).1, Except.error e)

/-- The gradient-related core operations named by the claim. -/
def isCoreOp : Action → Bool
  | Action.zeroGrad => true
  | Action.forward => true
  | Action.lossCompute _ => true
  | Action.backward => true
  | Action.optStep => true
  | _ => false

/-- Log events. -/
def isLogOp : Action → Bool
  | Action.logMsg _ => true
  | _ => false

/-- The test-evaluation phase of the papers100m scripts
(`papers100m_gcn_multinode.py` lines 121-131,
`singlenode_multigpu_papers100m_gcn.py` lines 109-119): every test batch
is transferred, forwarded and accumulated into the accuracy metric, then
the sums are all-reduced and the test accuracy printed.  No file is
written anywhere in either script. -/
def papersTestPhase (numBatches : Nat) : List Action :=
  (List.range numBatches).flatMap
      (fun _ => [Action.toDevice, Action.forward, Action.accUpdate])
    ++ [Action.allReduceMean, Action.logMsg "Test Accuracy"]

/-- The test phase of `mag240m_graphsage.py` (lines 248-260): at most
`eval_steps` batches are transferred, forwarded and accumulated, the sums
are all-reduced, and the test accuracy printed. -/
def mag240mTestPhase (nDevices evalSteps numBatches : Nat) : List Action :=
  (List.range (min numBatches evalSteps)).flatMap
      (fun _ => (if nDevices > 0 then [Action.toDevice] else [])
        ++ [Action.forward, Action.accUpdate])
    ++ [Action.allReduceMean, Action.logMsg "Test Accuracy"]

/-- The tail of `run` in `mag240m_graphsage.py` from the test loop to the
end (lines 248-264): the test phase, the optional
`dist.destroy_process_group()`, then `torch.save(model, ...)`, and finally
`assert final_test_acc >= 68.0`.  The first component lists the actions
performed before the assertion is evaluated; the second is the assertion's
outcome for the computed final test accuracy. -/
def mag240mRunTail (nDevices evalSteps numBatches : Nat)
    (finalTestAcc : ℚ) : List Action × Except PyError Unit :=
  ((mag240mTestPhase nDevices evalSteps numBatches
      ++ (if nDevices > 1 then [Action.destroyProcessGroup] else []))
      ++ [Action.saveFile "trained_graphsage_for_mag240m.pt"],
    if 68 ≤ finalTestAcc then Except.ok ()
    else Except.error PyError.assertionError)

/-! ## Claim C7 -/

/-- C7: the tail of `run` in `mag240m_graphsage.py` raises
`AssertionError` exactly when the computed final test accuracy (in
percent) is below 68.0, and the `torch.save` of the trained model is the
last action performed before the assertion is evaluated — in particular it
occurs for every accuracy value, so the model artifact is persisted
regardless of whether the threshold is met. -/
theorem C7_assert_after_save (nDevices evalSteps numBatches : Nat)
    (finalTestAcc : ℚ) :
    ((mag240mRunTail nDevices evalSteps numBatches finalTestAcc).2 =
        Except.error PyError.assertionError ↔ finalTestAcc < 68) ∧
      (mag240mRunTail nDevices evalSteps numBatches
          finalTestAcc).1.getLast? =
        some (Action.saveFile "trained_graphsage_for_mag240m.pt") := by
  constructor
  · simp only [mag240mRunTail]
    split_ifs with h
    · simp [not_lt.mpr h]
    · simp [not_le.mp h]
  · simp only [mag240mRunTail]
    exact List.getLast?_concat _

/-! ## Claim C8 -/

/-- C8: for every device count, eval-step bound, batch count and accuracy
value, the run tail of `mag240m_graphsage.py` performs the save of
`trained_graphsage_for_mag240m.pt` as its final action after the
test-evaluation loop; and no action of a papers100m script — neither a
training iteration of either script (in either `start`-binding state of
the multi-node iteration) nor the test phase — writes any file. -/
theorem C8_only_mag240m_saves (nDevices evalSteps numBatches rank i
    batchSize : Nat) (finalTestAcc : ℚ) (f : String) (sb : Bool) :
    Action.saveFile "trained_graphsage_for_mag240m.pt" ∈
        (mag240mRunTail nDevices evalSteps numBatches finalTestAcc).1 ∧
      (mag240mRunTail nDevices evalSteps numBatches
          finalTestAcc).1.getLast? =
        some (Action.saveFile "trained_graphsage_for_mag240m.pt") ∧
      Action.saveFile f ∉ singlenodeTrainIter rank i batchSize ∧
      Action.saveFile f ∉ (multinodeTrainIter rank i batchSize sb).1 ∧
      Action.saveFile f ∉ papersTestPhase numBatches := by
  refine ⟨?_, ?_, ?_, ?_, ?_⟩
  · simp [mag240mRunTail]
  · simp only [mag240mRunTail]
    exact List.getLast?_concat _
  · simp only [singlenodeTrainIter, List.mem_append, List.mem_cons,
      List.not_mem_nil]
    split_ifs <;> simp
  · simp only [multinodeTrainIter, multinodePre]
    split_ifs <;> simp
  · simp only [papersTestPhase, List.mem_append, List.mem_flatMap,
      List.mem_cons, List.not_mem_nil]
    simp

/-! ## Claim C9 -/

/-- C9: in every training iteration of each script the core operations
occur in the order zero-gradients, forward pass, cross-entropy loss on
the first `batch_size` outputs, backward, optimizer step, and the loss
log happens only at rank-0 iterations whose index is a multiple of the
logging interval (`log_every_n_steps` in mag240m, 10 in the papers100m
scripts); but in `papers100m_gcn_multinode.py` the mis-indented
per-iteration timing print aborts the iteration: with the function-local
`start` unbound — the state in which the loop reaches every iteration —
the iteration ends in `UnboundLocalError` (except at index 20, where
`start` is first assigned), so the epoch loop crashes at its first
iteration and the `"Average Training Iteration Time"` message is never
printed. -/
theorem C9_training_iterations (rank i logEvery nDevices batchSize k
    n : Nat) (sb : Bool) :
    (mag240mTrainIter rank i logEvery nDevices k).filter isCoreOp =
        [Action.zeroGrad, Action.forward, Action.lossCompute k,
          Action.backward, Action.optStep] ∧
      ((mag240mTrainIter rank i logEvery nDevices k).any isLogOp =
        decide (rank = 0 ∧ i % logEvery = 0)) ∧
      (singlenodeTrainIter rank i batchSize).filter isCoreOp =
        [Action.zeroGrad, Action.forward, Action.lossCompute batchSize,
          Action.backward, Action.optStep] ∧
      ((singlenodeTrainIter rank i batchSize).any isLogOp =
        decide (rank = 0 ∧ i % 10 = 0)) ∧
      (multinodeTrainIter rank i batchSize sb).1.filter isCoreOp =
        [Action.zeroGrad, Action.forward, Action.lossCompute batchSize,
          Action.backward, Action.optStep] ∧
      (Action.logMsg "loss" ∈ (multinodeTrainIter rank i batchSize sb).1 ↔
        rank = 0 ∧ i % 10 = 0) ∧
      ((multinodeTrainIter rank i batchSize false).2 =
        if i = 20 then Except.ok ()
        else Except.error (PyError.unboundLocalError "start")) ∧
      (Action.logMsg "Average Training Iteration Time" ∈
          (multinodeTrainIter rank i batchSize false).1 ↔ i = 20) ∧
      multinodeEpochLoop rank batchSize (List.range (n + 1)) false =
        (multinodePre rank 0 batchSize,
          Except.error (PyError.unboundLocalError "start")) ∧
      Action.logMsg "Average Training Iteration Time" ∉
        (multinodeEpochLoop rank batchSize (List.range (n + 1)) false).1 := by
  have hloop : multinodeEpochLoop rank batchSize (List.range (n + 1))
      false =
      (multinodePre rank 0 batchSize,
        Except.error (PyError.unboundLocalError "start")) := by
    rw [List.range_succ_eq_map]
    simp [multinodeEpochLoop, multinodeTrainIter]
  refine ⟨?_, ?_, ?_, ?_, ?_, ?_, ?_, ?_, hloop, ?_⟩
  · simp only [mag240mTrainIter]
    split_ifs <;> simp [isCoreOp]
  · simp only [mag240mTrainIter]
    split_ifs with h1 h2 <;> simp_all [isLogOp]
  · simp only [singlenodeTrainIter]
    split_ifs <;> simp [isCoreOp]
  · simp only [singlenodeTrainIter]
    split_ifs with h <;> simp_all [isLogOp]
  · simp only [multinodeTrainIter, multinodePre]
    split_ifs <;> simp [isCoreOp]
  · simp only [multinodeTrainIter, multinodePre]
    split_ifs with h <;> simp_all
  · by_cases h20 : i = 20
    · subst h20
      simp [multinodeTrainIter]
    · simp [multinodeTrainIter, h20]
  · by_cases h20 : i = 20
    · subst h20
      simp [multinodeTrainIter, multinodePre]
    · simp only [multinodeTrainIter, multinodePre]
      split_ifs <;> simp_all
  · rw [hloop]
    simp only [multinodePre]
    split_ifs <;> simp

/-! ## Per-rank index splitting (C10)

All three scripts shard the train indices by
`idx.split(idx.size(0) // world_size)[rank]`
(`mag240m_graphsage.py` lines 165-169, `papers100m_gcn_multinode.py`
lines 44-45, `singlenode_multigpu_papers100m_gcn.py` lines 33-34). -/

/-- Semantics of `torch.Tensor.split(split_size)` along dimension 0: the
tensor is cut into consecutive chunks of `s` elements, the last chunk
being smaller when the length is not divisible by `s`; the number of
chunks is the length divided by `s`, rounded up. -/
def torchSplit (xs : List Nat) (s : Nat) : List (List Nat) :=
  (List.range ((xs.length + s - 1) / s)).map
    (fun k => (xs.drop (k * s)).take s)

/-- The chunk selected by rank `r`:
`idx.split(idx.size(0) // world_size)[rank]` with world size `w`. -/
def rankChunk (xs : List Nat) (w r : Nat) : List Nat :=
  (torchSplit xs (xs.length / w)).getD r []

theorem mem_slice_iff (xs : List Nat) (m s : Nat) (a : Nat) :
    a ∈ (xs.drop m).take s ↔
      ∃ j, ∃ h : m + j < xs.length, j < s ∧ xs.get ⟨m + j, h⟩ = a := by
  rw [List.mem_iff_getElem]
  constructor
  · rintro ⟨j, hj, hja⟩
    have hjlen : j < min s (xs.length - m) := by
      simpa [List.length_take, List.length_drop] using hj
    simp only [List.getElem_take, List.getElem_drop] at hja
    refine ⟨j, by omega, by omega, ?_⟩
    simpa [List.get_eq_getElem] using hja
  · rintro ⟨j, h, hjs, hget⟩
    have hj : j < ((xs.drop m).take s).length := by
      simp only [List.length_take, List.length_drop]
      omega
    refine ⟨j, hj, ?_⟩
    simp only [List.getElem_take, List.getElem_drop]
    simpa [List.get_eq_getElem] using hget

theorem torchSplit_getD (xs : List Nat) (s r : Nat)
    (hr : r < (xs.length + s - 1) / s) :
    (torchSplit xs s).getD r [] = (xs.drop (r * s)).take s := by
  have hlen : r < (torchSplit xs s).length := by
    simpa [torchSplit] using hr
  rw [List.getD_eq_getElem _ _ hlen]
  simp [torchSplit]

theorem rankChunk_eq (xs : List Nat) (w r : Nat) (hw : 1 ≤ w)
    (hwn : w ≤ xs.length) (hr : r < w) :
    rankChunk xs w r =
      (xs.drop (r * (xs.length / w))).take (xs.length / w) := by
  apply torchSplit_getD
  have hs : 1 ≤ xs.length / w := (Nat.one_le_div_iff hw).mpr hwn
  have hws : w * (xs.length / w) ≤ xs.length := by
    rw [Nat.mul_comm]
    exact Nat.div_mul_le_self _ _
  have h1 : w ≤ xs.length / (xs.length / w) :=
    (Nat.le_div_iff_mul_le hs).mpr hws
  have h2 : xs.length / (xs.length / w) ≤
      (xs.length + xs.length / w - 1) / (xs.length / w) :=
    Nat.div_le_div_right (by omega)
  omega

theorem chunk_bound (xs : List Nat) (w r : Nat) (hr : r < w) :
    r * (xs.length / w) + xs.length / w ≤ w * (xs.length / w) := by
  have h := Nat.mul_le_mul_right (xs.length / w) (Nat.succ_le_of_lt hr)
  simpa [Nat.succ_mul] using h

theorem mul_div_le_self' (n w : Nat) : w * (n / w) ≤ n := by
  rw [Nat.mul_comm]
  exact Nat.div_mul_le_self _ _

theorem rankChunk_length (xs : List Nat) (w r : Nat) (hw : 1 ≤ w)
    (hwn : w ≤ xs.length) (hr : r < w) :
    (rankChunk xs w r).length = xs.length / w := by
  rw [rankChunk_eq xs w r hw hwn hr, List.length_take, List.length_drop]
  have h1 := chunk_bound xs w r hr
  have h2 := mul_div_le_self' xs.length w
  omega

theorem mem_rankChunk_iff (xs : List Nat) (w r : Nat) (hw : 1 ≤ w)
    (hwn : w ≤ xs.length) (hr : r < w) (a : Nat) :
    a ∈ rankChunk xs w r ↔
      ∃ j, ∃ h : r * (xs.length / w) + j < xs.length,
        j < xs.length / w ∧ xs.get ⟨r * (xs.length / w) + j, h⟩ = a := by
  rw [rankChunk_eq xs w r hw hwn hr, mem_slice_iff]

theorem rankChunk_disjoint (xs : List Nat) (w r r' : Nat) (hw : 1 ≤ w)
    (hwn : w ≤ xs.length) (hr : r < w) (hr' : r' < w) (hne : r ≠ r')
    (hnodup : xs.Nodup) (a : Nat) (ha : a ∈ rankChunk xs w r) :
    a ∉ rankChunk xs w r' := by
  intro ha'
  obtain ⟨j, hj, hjs, hget⟩ := (mem_rankChunk_iff xs w r hw hwn hr a).mp ha
  obtain ⟨j', hj', hjs', hget'⟩ :=
    (mem_rankChunk_iff xs w r' hw hwn hr' a).mp ha'
  have hinj := List.nodup_iff_injective_get.mp hnodup
  have heq : xs.get ⟨r * (xs.length / w) + j, hj⟩ =
      xs.get ⟨r' * (xs.length / w) + j', hj'⟩ := by rw [hget, hget']
  have hidx : r * (xs.length / w) + j = r' * (xs.length / w) + j' :=
    congrArg Fin.val (hinj heq)
  have key : ∀ u v : Nat, u < v →
      u * (xs.length / w) + xs.length / w ≤ v * (xs.length / w) := by
    intro u v huv
    have := Nat.mul_le_mul_right (xs.length / w) (Nat.succ_le_of_lt huv)
    simpa [Nat.succ_mul] using this
  rcases Nat.lt_trichotomy r r' with h | h | h
  · have := key r r' h
    omega
  · exact hne h
  · have := key r' r h
    omega

theorem rankChunk_trailing (xs : List Nat) (w r : Nat) (hw : 1 ≤ w)
    (hwn : w ≤ xs.length) (hr : r < w) (hnodup : xs.Nodup)
    (i : Nat) (h : i < xs.length)
    (hi : xs.length - xs.length % w ≤ i) :
    xs.get ⟨i, h⟩ ∉ rankChunk xs w r := by
  intro hmem
  obtain ⟨j, hj, hjs, hget⟩ :=
    (mem_rankChunk_iff xs w r hw hwn hr _).mp hmem
  have hinj := List.nodup_iff_injective_get.mp hnodup
  have hidx : r * (xs.length / w) + j = i :=
    congrArg Fin.val (hinj hget)
  have hkey := chunk_bound xs w r hr
  have hdm := Nat.div_add_mod xs.length w
  omega

/-! ## Claim C10 -/

/-- C10: for every world size `w ≥ 1` and every duplicate-free
train-index tensor of size `n ≥ w`, the per-rank chunks produced by
`tensor.split(n // w)[rank]` for ranks `0..w-1` are contiguous slices of
exactly `n / w` indices each, pairwise disjoint across distinct ranks;
the trailing `n % w` indices (those at positions at least
`n - n % w`) belong to no rank's chunk. -/
theorem C10_split_disjoint_chunks (xs : List Nat) (w r r' : Nat)
    (hw : 1 ≤ w) (hwn : w ≤ xs.length) (hr : r < w) (hr' : r' < w)
    (hne : r ≠ r') (hnodup : xs.Nodup) :
    (rankChunk xs w r).length = xs.length / w ∧
      rankChunk xs w r =
        (xs.drop (r * (xs.length / w))).take (xs.length / w) ∧
      (∀ a ∈ rankChunk xs w r, a ∉ rankChunk xs w r') ∧
      ∀ i, ∀ h : i < xs.length, xs.length - xs.length % w ≤ i →
        xs.get ⟨i, h⟩ ∉ rankChunk xs w r :=
  ⟨rankChunk_length xs w r hw hwn hr,
   rankChunk_eq xs w r hw hwn hr,
   fun a ha => rankChunk_disjoint xs w r r' hw hwn hr hr' hne hnodup a ha,
   fun i h hi => rankChunk_trailing xs w r hw hwn hr hnodup i h hi⟩

/-- C10 witness: the split of a 5-element index tensor across 2 ranks:
rank 0 receives the first 2 indices, rank 1 the next 2, and the trailing
index is assigned to neither. -/
theorem C10_witness :
    (1 ≤ 2 ∧ 2 ≤ ([10, 20, 30, 40, 50] : List Nat).length ∧ 0 < 2 ∧
        1 < 2 ∧ (0 : Nat) ≠ 1 ∧ ([10, 20, 30, 40, 50] : List Nat).Nodup) ∧
      ((rankChunk [10, 20, 30, 40, 50] 2 0).length =
          ([10, 20, 30, 40, 50] : List Nat).length / 2 ∧
        rankChunk [10, 20, 30, 40, 50] 2 0 =
          (([10, 20, 30, 40, 50] : List Nat).drop
              (0 * (([10, 20, 30, 40, 50] : List Nat).length / 2))).take
            (([10, 20, 30, 40, 50] : List Nat).length / 2) ∧
        (∀ a ∈ rankChunk [10, 20, 30, 40, 50] 2 0,
          a ∉ rankChunk [10, 20, 30, 40, 50] 2 1) ∧
        ∀ i, ∀ h : i < ([10, 20, 30, 40, 50] : List Nat).length,
          ([10, 20, 30, 40, 50] : List Nat).length -
              ([10, 20, 30, 40, 50] : List Nat).length % 2 ≤ i →
          ([10, 20, 30, 40, 50] : List Nat).get ⟨i, h⟩ ∉
            rankChunk [10, 20, 30, 40, 50] 2 0) :=
  ⟨⟨by decide, by decide, by decide, by decide, by decide, by decide⟩,
   C10_split_disjoint_chunks [10, 20, 30, 40, 50] 2 0 1 (by decide)
     (by decide) (by decide) (by decide) (by decide) (by decide)⟩

end PyGExamples
